import Mathlib

/-!
Shallow embedding of the grading-categorization and statistics engine of the
AI-assisted grading UI: the category classifier `determineCategory` and the
statistics aggregator `calculateGradingStats` (src/assets/js/grading-logic.js),
and the triage list builder `renderStudentExamsList`
(src/assets/js/grading-view.js).  JavaScript numbers are modelled as exact
rationals; absent object fields are modelled with `Option`.
-/

namespace Grading

/-- Thresholds object `{ aiConfidenceThreshold, studentScoreThreshold }`. -/
structure Thresholds where
  aiConfidenceThreshold : ℚ
  studentScoreThreshold : ℚ
deriving DecidableEq, Repr

/-- The five category keys returned by `determineCategory`. -/
inductive Category where
  | aiLow
  | lowScore
  | aiHigh
  | gradedOnce
  | graded2Plus
deriving DecidableEq, Repr

/-- grading-logic.js lines 11-21: `determineCategory(confidence, score,
maxPoints, manualStatus, thresholds)`. -/
def determineCategory (confidence score maxPoints manualStatus : ℚ)
    (thresholds : Thresholds) : Category :=
  if manualStatus ≥ 2 then .graded2Plus
  else if manualStatus = 1 then .gradedOnce
  else
    let scorePercentage := if maxPoints > 0 then score / maxPoints * 100 else 0
    if confidence < thresholds.aiConfidenceThreshold then .aiLow
    else if scorePercentage < thresholds.studentScoreThreshold then .lowScore
    else .aiHigh

/-- A gradable leaf item: a subquestion, or a standalone question viewed as
its own single gradable item (`{id, points}` is all the engine reads). -/
structure SubQuestion where
  id : String
  points : ℚ
deriving DecidableEq, Repr

/-- A top-level question; `subquestions = []` models an absent or empty
`subquestions` field (both are treated identically by the source, which
tests `question.subquestions && question.subquestions.length > 0`). -/
structure Question where
  id : String
  points : ℚ
  subquestions : List SubQuestion
deriving DecidableEq, Repr

/-- A grade entry `{questionId, confidence, aiSuggestedScore, manualStatus}`.
The source reads each numeric field through `|| 0` / `?? 0`, so a numeric
field is modelled total (an absent field is the value 0). -/
structure Grade where
  questionId : String
  confidence : ℚ
  aiSuggestedScore : ℚ
  manualStatus : ℚ
deriving DecidableEq, Repr

/-- A student submission `{id, name, grades}`. -/
structure Student where
  id : String
  name : String
  grades : List Grade
deriving DecidableEq, Repr

/-- Repository data once both fields are known to be present. -/
structure RepoData where
  questions : List Question
  studentSubmissions : List Student
deriving DecidableEq, Repr

/-- The repository object as received: either field may be absent
(`undefined`/`null`), which the entry guards test for. -/
structure Repository where
  questions : Option (List Question)
  studentSubmissions : Option (List Student)
deriving DecidableEq, Repr

/-! ### Statistics aggregator (grading-logic.js lines 30-115) -/

/-- grading-logic.js lines 48-52: look the student up by id in
`studentSubmissions`, then scan that student's grades for the question id. -/
def findGrade (repo : RepoData) (studentId questionId : String) : Option Grade :=
  match repo.studentSubmissions.find? (fun s => s.id = studentId) with
  | none => none
  | some student => student.grades.find? (fun g => g.questionId = questionId)

/-- grading-logic.js line 60-61: `subItems = isParent ? question.subquestions
: [question]` with `isParent = subquestions && subquestions.length > 0`. -/
def subItems (q : Question) : List SubQuestion :=
  if q.subquestions.length > 0 then q.subquestions else [⟨q.id, q.points⟩]

/-- grading-logic.js lines 80-90: category of one (leaf item, student) pair;
an absent grade falls back to `aiLow`. -/
def pairCategory (repo : RepoData) (parameters : Thresholds)
    (item : SubQuestion) (student : Student) : Category :=
  match findGrade repo student.id item.id with
  | none => .aiLow
  | some grade =>
      determineCategory grade.confidence grade.aiSuggestedScore item.points
        grade.manualStatus parameters

/-- All pair categories accumulated under one top-level question, in the
source's loop order (leaf items outer, students inner). -/
def questionPairCategories (repo : RepoData) (parameters : Thresholds)
    (q : Question) : List Category :=
  (subItems q).flatMap (fun item =>
    repo.studentSubmissions.map (fun student =>
      pairCategory repo parameters item student))

/-- Per-question stats record; the five category fields are raw counts until
the conversion step turns them into percentages. -/
structure QuestionStat where
  aiHigh : ℚ
  aiLow : ℚ
  lowScore : ℚ
  gradedOnce : ℚ
  graded2Plus : ℚ
  totalCount : ℕ
deriving DecidableEq, Repr

/-- grading-logic.js lines 92-94: raw per-question counts. -/
def rawQuestionStat (repo : RepoData) (parameters : Thresholds)
    (q : Question) : QuestionStat :=
  let cats := questionPairCategories repo parameters q
  { aiHigh := cats.count .aiHigh
    aiLow := cats.count .aiLow
    lowScore := cats.count .lowScore
    gradedOnce := cats.count .gradedOnce
    graded2Plus := cats.count .graded2Plus
    totalCount := cats.length }

/-- grading-logic.js lines 103-111: convert the five counts to percentages of
`totalCount` when it is positive; leave them untouched otherwise. -/
def toPercentages (s : QuestionStat) : QuestionStat :=
  if s.totalCount > 0 then
    { aiHigh := s.aiHigh / s.totalCount * 100
      aiLow := s.aiLow / s.totalCount * 100
      lowScore := s.lowScore / s.totalCount * 100
      gradedOnce := s.gradedOnce / s.totalCount * 100
      graded2Plus := s.graded2Plus / s.totalCount * 100
      totalCount := s.totalCount }
  else s

/-- The final `questionStats` entry stored for a top-level question. -/
def questionStatFinal (repo : RepoData) (parameters : Thresholds)
    (q : Question) : QuestionStat :=
  toPercentages (rawQuestionStat repo parameters q)

/-- Global weighted counters, grading-logic.js lines 36-43. -/
structure GlobalStats where
  aiHigh : ℚ
  aiLow : ℚ
  lowScore : ℚ
  gradedOnce : ℚ
  graded2Plus : ℚ
  totalWeight : ℚ
deriving DecidableEq, Repr

/-- grading-logic.js line 57: `weightPerQuestion = 100 / numQuestions`. -/
def weightPerQuestion (repo : RepoData) : ℚ :=
  100 / repo.questions.length

/-- grading-logic.js lines 62 and 97: the contribution of one (leaf item,
student) pair under question `q`:
`(1 / numStudents) * (weightPerQuestion / numSubItems)`. -/
def contribution (repo : RepoData) (q : Question) : ℚ :=
  (1 / repo.studentSubmissions.length) * (weightPerQuestion repo / (subItems q).length)

/-- grading-logic.js line 98: total weight accumulated into one category
field of `globalStats` (each pair whose category matches adds its
contribution). -/
def globalCategoryWeight (repo : RepoData) (parameters : Thresholds)
    (c : Category) : ℚ :=
  (repo.questions.map (fun q =>
    ((subItems q).map (fun item =>
      (repo.studentSubmissions.map (fun student =>
        if pairCategory repo parameters item student = c
        then contribution repo q else 0)).sum)).sum)).sum

/-- grading-logic.js line 99: `totalWeight` accumulates every pair's
contribution unconditionally. -/
def globalTotalWeight (repo : RepoData) : ℚ :=
  (repo.questions.map (fun q =>
    ((subItems q).map (fun _ =>
      (repo.studentSubmissions.map (fun _ =>
        contribution repo q)).sum)).sum)).sum

/-- The global stats object returned by the aggregator. -/
def globalStatsOf (repo : RepoData) (parameters : Thresholds) : GlobalStats :=
  { aiHigh := globalCategoryWeight repo parameters .aiHigh
    aiLow := globalCategoryWeight repo parameters .aiLow
    lowScore := globalCategoryWeight repo parameters .lowScore
    gradedOnce := globalCategoryWeight repo parameters .gradedOnce
    graded2Plus := globalCategoryWeight repo parameters .graded2Plus
    totalWeight := globalTotalWeight repo }

/-- Result object `{ globalStats, questionStats }`; `questionStats` is keyed
by top-level question id, in processing order (a later duplicate id would
overwrite an earlier one, which lookup-by-last models). -/
structure Stats where
  globalStats : GlobalStats
  questionStats : List (String × QuestionStat)
deriving DecidableEq, Repr

/-- grading-logic.js lines 30-115: `calculateGradingStats(repository,
parameters)`; returns the `null` sentinel (modelled `none`) when the
repository or either of its two fields is absent. -/
def calculateGradingStats (repository : Option Repository)
    (parameters : Thresholds) : Option Stats :=
  match repository with
  | none => none
  | some repo =>
    match repo.questions, repo.studentSubmissions with
    | some qs, some ss =>
        let d : RepoData := ⟨qs, ss⟩
        some { globalStats := globalStatsOf d parameters
               questionStats := qs.map (fun q => (q.id, questionStatFinal d parameters q)) }
    | _, _ => none

/-! ### Triage list builder (grading-view.js lines 765-931) -/

/-- grading-view.js lines 797-806: map a category key to its 0-4 code. -/
def getCategoryCode : Category → ℕ
  | .graded2Plus => 4
  | .gradedOnce => 3
  | .aiHigh => 2
  | .lowScore => 1
  | .aiLow => 0

/-- grading-view.js lines 808-815: classify and return the numeric code.
The thresholds (read from localStorage in the source) are a parameter. -/
def getCategory (thresholds : Thresholds)
    (confidence score maxPoints manualStatus : ℚ) : ℕ :=
  getCategoryCode (determineCategory confidence score maxPoints manualStatus thresholds)

/-- One entry of `allItems`, grading-view.js lines 867-873. -/
structure TriageItem where
  taskName : String
  confidence : ℚ
  category : ℕ
  studentName : String
  questionId : String
deriving DecidableEq, Repr

/-- grading-view.js lines 840, 860, 879: direct scan of the student's own
grades for a question id (`student.grades?.find(...)`). -/
def gradeFor (student : Student) (questionId : String) : Option Grade :=
  student.grades.find? (fun g => g.questionId = questionId)

/-- Confidence used for a leaf item: `subGrade?.confidence ?? 0`. -/
def subConfOf (student : Student) (sub : SubQuestion) : ℚ :=
  ((gradeFor student sub.id).map Grade.confidence).getD 0

/-- Score used for a leaf item: `subGrade?.aiSuggestedScore ?? 0`. -/
def subScoreOf (student : Student) (sub : SubQuestion) : ℚ :=
  ((gradeFor student sub.id).map Grade.aiSuggestedScore).getD 0

/-- Manual status used for a leaf item: `subGrade?.manualStatus || 0`. -/
def subStatusOf (student : Student) (sub : SubQuestion) : ℚ :=
  ((gradeFor student sub.id).map Grade.manualStatus).getD 0

/-- Category code computed for a leaf item (grading-view.js lines 839-848
and 860-865 compute exactly the same value for the same item). -/
def subCategoryOf (thresholds : Thresholds) (student : Student)
    (sub : SubQuestion) : ℕ :=
  getCategory thresholds (subConfOf student sub) (subScoreOf student sub)
    sub.points (subStatusOf student sub)

/-- The `allItems` entry pushed for a leaf item (subquestion, or a standalone
question viewed as its own item), grading-view.js lines 867-873 / 892-898. -/
def subEntry (thresholds : Thresholds) (student : Student)
    (sub : SubQuestion) : TriageItem :=
  { taskName := student.name ++ " - " ++ sub.id
    confidence := subConfOf student sub
    category := subCategoryOf thresholds student sub
    studentName := student.name
    questionId := sub.id }

/-- `Math.min(...l)` over a nonempty list (the default is returned only for
`[]`, which the source never passes). -/
def mathMin [Min α] (l : List α) (default : α) : α :=
  match l with
  | [] => default
  | x :: xs => xs.foldl min x

/-- A question filter value from the select element; the empty selection is
falsy in the source and modelled `none`. -/
def passesQuestionFilter (selectedQuestion : Option String) (id : String) : Bool :=
  match selectedQuestion with
  | none => true
  | some s => id = s

/-- Student filter, grading-view.js line 824. -/
def passesStudentFilter (selectedStudent : Option String) (name : String) : Bool :=
  match selectedStudent with
  | none => true
  | some s => name = s

/-- grading-view.js lines 826-900: the entries one (student, top-level
question) pair pushes onto `allItems`: for a parent, the filtered
subquestion entries then the parent entry with min category / min
confidence; for a standalone question, its own entry doubling as the
parent entry. -/
def questionEntries (thresholds : Thresholds) (selectedQuestion : Option String)
    (student : Student) (question : Question) : List TriageItem :=
  if question.subquestions.length > 0 then
    let subCategories := question.subquestions.map (subCategoryOf thresholds student)
    let subConfidences := question.subquestions.map (subConfOf student)
    let parentCategory := mathMin subCategories 0
    let parentConfidence := mathMin subConfidences 0
    let subEntries := (question.subquestions.filter (fun sub =>
      passesQuestionFilter selectedQuestion sub.id)).map (subEntry thresholds student)
    let parentEntries :=
      if passesQuestionFilter selectedQuestion question.id then
        [{ taskName := student.name ++ " - " ++ question.id
           confidence := parentConfidence
           category := parentCategory
           studentName := student.name
           questionId := question.id : TriageItem }]
      else []
    subEntries ++ parentEntries
  else
    if passesQuestionFilter selectedQuestion question.id then
      [subEntry thresholds student ⟨question.id, question.points⟩]
    else []

/-- grading-view.js lines 817-901: build the unsorted `allItems` list. -/
def buildItems (repo : RepoData) (thresholds : Thresholds)
    (selectedQuestion selectedStudent : Option String) : List TriageItem :=
  repo.studentSubmissions.flatMap (fun student =>
    if passesStudentFilter selectedStudent student.name then
      repo.questions.flatMap (questionEntries thresholds selectedQuestion student)
    else [])

/-- The comparator of grading-view.js lines 904-909 as a Boolean `le`:
`a` precedes `b` when its category is lower, or categories tie and its
confidence is not larger. -/
def itemLE (a b : TriageItem) : Bool :=
  decide (a.category < b.category ∨ (a.category = b.category ∧ a.confidence ≤ b.confidence))

/-- grading-view.js lines 903-909: sort `allItems` ascending by
(category, confidence). -/
def sortItems (items : List TriageItem) : List TriageItem :=
  items.mergeSort itemLE

/-- Observable outcome of `renderStudentExamsList`: the guard-clause
placeholder, a rendered sorted list, or the TypeError the source would hit
dereferencing an absent `studentSubmissions` past the guard. -/
inductive RenderResult where
  | placeholder
  | rendered (items : List TriageItem)
  | jsError
deriving DecidableEq, Repr

/-- grading-view.js lines 765-931: `renderStudentExamsList`, reduced to the
list it renders.  The guard clause (lines 771-783) checks only `repository`
and `repository.questions`. -/
def renderStudentExamsList (repository : Option Repository)
    (thresholds : Thresholds) (selectedQuestion selectedStudent : Option String) :
    RenderResult :=
  match repository with
  | none => .placeholder
  | some repo =>
    match repo.questions with
    | none => .placeholder
    | some qs =>
      match repo.studentSubmissions with
      | none => .jsError
      | some ss =>
          .rendered (sortItems (buildItems ⟨qs, ss⟩ thresholds selectedQuestion selectedStudent))

/-! ### Concrete fixtures used by witnesses and counterexamples -/

/-- Spec section 8 scenario student: one grade on `Q1` with confidence 90,
suggested score 8, no manual pass. -/
def wStudent : Student := ⟨"s1", "A", [⟨"Q1", 90, 8, 0⟩]⟩

/-- Spec section 8 scenario question: standalone `Q1` worth 10 points. -/
def wQuestion : Question := ⟨"Q1", 10, []⟩

/-- Spec section 8 scenario repository data. -/
def wRepo : RepoData := ⟨[wQuestion], [wStudent]⟩

/-- A student with no grade entries at all. -/
def cexStudent : Student := ⟨"s1", "A", []⟩

/-- A standalone zero-point question. -/
def cexQuestion : Question := ⟨"Q1", 0, []⟩

/-- Repository with one ungraded student and one standalone question. -/
def cexRepo : RepoData := ⟨[cexQuestion], [cexStudent]⟩

/-- A parent question with two zero-point subquestions. -/
def pQuestion : Question := ⟨"Q1", 10, [⟨"Q1.A", 0⟩, ⟨"Q1.B", 0⟩]⟩

/-- A student who has been manually graded twice on `Q1.A` and has no entry
for `Q1.B`. -/
def pStudent : Student := ⟨"s1", "A", [⟨"Q1.A", 0, 0, 2⟩]⟩

end Grading

namespace Grading

/-! ### Generic helper lemmas -/

theorem sum_map_const (l : List α) (c : ℚ) : (l.map (fun _ => c)).sum = l.length * c := by
  induction l with
  | nil => simp
  | cons x xs ih => simp [ih]; ring

theorem sum_split5 (l : List α) (f g1 g2 g3 g4 g5 : α → ℚ)
    (h : ∀ x ∈ l, f x = g1 x + g2 x + g3 x + g4 x + g5 x) :
    (l.map f).sum = (l.map g1).sum + (l.map g2).sum + (l.map g3).sum
      + (l.map g4).sum + (l.map g5).sum := by
  induction l with
  | nil => simp
  | cons x xs ih =>
      simp only [List.map_cons, List.sum_cons]
      rw [h x (by simp), ih (fun y hy => h y (by simp [hy]))]
      ring

theorem catCount_sum (l : List Category) :
    l.count .aiHigh + l.count .aiLow + l.count .lowScore
      + l.count .gradedOnce + l.count .graded2Plus = l.length := by
  induction l with
  | nil => simp
  | cons x xs ih => cases x <;> simp [List.count_cons] <;> omega

theorem foldl_min_le_init [LinearOrder α] (l : List α) (a : α) :
    l.foldl min a ≤ a := by
  induction l generalizing a with
  | nil => exact le_refl a
  | cons x xs ih => exact le_trans (ih (min a x)) (min_le_left a x)

theorem foldl_min_le_mem [LinearOrder α] (l : List α) (a : α) :
    ∀ x ∈ l, l.foldl min a ≤ x := by
  induction l generalizing a with
  | nil => intro x hx; exact absurd hx (List.not_mem_nil x)
  | cons y ys ih =>
      intro x hx
      rcases List.mem_cons.mp hx with h | h
      · subst h
        exact le_trans (foldl_min_le_init ys (min a x)) (min_le_right a x)
      · exact ih (min a y) x h

theorem foldl_min_eq_or_mem [LinearOrder α] (l : List α) (a : α) :
    l.foldl min a = a ∨ l.foldl min a ∈ l := by
  induction l generalizing a with
  | nil => exact Or.inl rfl
  | cons y ys ih =>
      rcases ih (min a y) with h | h
      · rcases min_choice a y with hm | hm
        · exact Or.inl (by simpa [hm] using h)
        · exact Or.inr (by simp [List.foldl_cons]; left; rw [h, hm])
      · exact Or.inr (List.mem_cons_of_mem y h)

theorem mathMin_mem [LinearOrder α] (l : List α) (d : α) (h : l ≠ []) :
    mathMin l d ∈ l := by
  match l with
  | [] => exact absurd rfl h
  | x :: xs =>
      rcases foldl_min_eq_or_mem xs x with h2 | h2
      · simp [mathMin, h2]
      · exact List.mem_cons_of_mem x (by simpa [mathMin] using h2)

theorem mathMin_le [LinearOrder α] (l : List α) (d : α) :
    ∀ x ∈ l, mathMin l d ≤ x := by
  match l with
  | [] => intro x hx; exact absurd hx (List.not_mem_nil x)
  | y :: ys =>
      intro x hx
      rcases List.mem_cons.mp hx with h | h
      · subst h; exact foldl_min_le_init ys x
      · exact foldl_min_le_mem ys y x h

theorem subItems_ne_nil (q : Question) : subItems q ≠ [] := by
  unfold subItems
  split
  · next h => intro hnil; rw [hnil] at h; simp at h
  · simp

/-! ### C1 -/

/-- C1: `determineCategory` follows the spec's six-step first-match order:
manualStatus ≥ 2 gives graded2Plus; else manualStatus = 1 gives gradedOnce;
else, with scorePercentage = (score/maxPoints)*100 when maxPoints > 0 and 0
otherwise, confidence below the AI threshold gives aiLow; else a score
percentage below the score threshold gives lowScore; else aiHigh. -/
theorem determineCategory_six_step_order (confidence score maxPoints manualStatus : ℚ)
    (thresholds : Thresholds) :
    (2 ≤ manualStatus →
      determineCategory confidence score maxPoints manualStatus thresholds
        = Category.graded2Plus) ∧
    (¬ 2 ≤ manualStatus → manualStatus = 1 →
      determineCategory confidence score maxPoints manualStatus thresholds
        = Category.gradedOnce) ∧
    (¬ 2 ≤ manualStatus → manualStatus ≠ 1 →
      confidence < thresholds.aiConfidenceThreshold →
      determineCategory confidence score maxPoints manualStatus thresholds
        = Category.aiLow) ∧
    (¬ 2 ≤ manualStatus → manualStatus ≠ 1 →
      ¬ confidence < thresholds.aiConfidenceThreshold →
      (if maxPoints > 0 then score / maxPoints * 100 else 0)
          < thresholds.studentScoreThreshold →
      determineCategory confidence score maxPoints manualStatus thresholds
        = Category.lowScore) ∧
    (¬ 2 ≤ manualStatus → manualStatus ≠ 1 →
      ¬ confidence < thresholds.aiConfidenceThreshold →
      ¬ (if maxPoints > 0 then score / maxPoints * 100 else 0)
          < thresholds.studentScoreThreshold →
      determineCategory confidence score maxPoints manualStatus thresholds
        = Category.aiHigh) := by
  refine ⟨fun h1 => ?_, fun h1 h2 => ?_, fun h1 h2 h3 => ?_,
    fun h1 h2 h3 h4 => ?_, fun h1 h2 h3 h4 => ?_⟩ <;>
    simp [determineCategory, *]

/-- Witness for C1 at manualStatus = 2. -/
theorem determineCategory_six_step_witness :
    determineCategory 90 8 10 2 ⟨80, 50⟩ = Category.graded2Plus :=
  (determineCategory_six_step_order 90 8 10 2 ⟨80, 50⟩).1 (by norm_num)

/-! ### C8 -/

/-- C8: threshold ties resolve to the passing branch.  With manualStatus 0
and confidence equal to the AI threshold the result is never aiLow, and when
the score percentage equals the score threshold (with confidence passing)
the result is never lowScore: both comparisons are strict less-than. -/
theorem threshold_ties_resolve_to_pass (score maxPoints c T st : ℚ) :
    determineCategory T score maxPoints 0 ⟨T, st⟩ ≠ Category.aiLow ∧
    (T ≤ c → (if maxPoints > 0 then score / maxPoints * 100 else 0) = st →
      determineCategory c score maxPoints 0 ⟨T, st⟩ ≠ Category.lowScore) := by
  constructor
  · unfold determineCategory
    norm_num
    split <;> split <;> decide
  · intro hTc hpct
    unfold determineCategory
    norm_num [not_lt.mpr hTc, hpct]
    decide

/-- Witness for C8: confidence exactly at the threshold, score percentage
exactly at the score threshold. -/
theorem threshold_ties_witness :
    determineCategory 80 40 0 0 ⟨80, 0⟩ ≠ Category.lowScore :=
  (threshold_ties_resolve_to_pass 40 0 80 80 0).2 (by norm_num) (by norm_num)

/-! ### C3 -/

theorem itemLE_trans (a b c : TriageItem) (hab : itemLE a b = true)
    (hbc : itemLE b c = true) : itemLE a c = true := by
  simp only [itemLE, decide_eq_true_eq] at *
  rcases hab with h1 | ⟨h1, h2⟩ <;> rcases hbc with h3 | ⟨h3, h4⟩
  · exact Or.inl (lt_trans h1 h3)
  · exact Or.inl (by rw [← h3]; exact h1)
  · exact Or.inl (by rw [h1]; exact h3)
  · exact Or.inr ⟨h1.trans h3, le_trans h2 h4⟩

theorem itemLE_total (a b : TriageItem) : (itemLE a b || itemLE b a) = true := by
  simp only [itemLE, Bool.or_eq_true, decide_eq_true_eq]
  rcases lt_trichotomy a.category b.category with h | h | h
  · exact Or.inl (Or.inl h)
  · rcases le_total a.confidence b.confidence with hc | hc
    · exact Or.inl (Or.inr ⟨h, hc⟩)
    · exact Or.inr (Or.inr ⟨h.symm, hc⟩)
  · exact Or.inr (Or.inl h)

/-- C3: for every repository, thresholds and filters, the triage list is
sorted ascending lexicographically by (category, confidence): category codes
are non-decreasing, and within equal categories confidences are
non-decreasing. -/
theorem triage_list_sorted (repo : RepoData) (thresholds : Thresholds)
    (selectedQuestion selectedStudent : Option String) :
    List.Pairwise (fun a b : TriageItem => a.category < b.category ∨
        (a.category = b.category ∧ a.confidence ≤ b.confidence))
      (sortItems (buildItems repo thresholds selectedQuestion selectedStudent)) := by
  have h := @List.sorted_mergeSort TriageItem itemLE itemLE_trans itemLE_total
    (buildItems repo thresholds selectedQuestion selectedStudent)
  exact h.imp (fun hab => by simpa [itemLE, decide_eq_true_eq] using hab)

/-! ### C4 -/

/-- C4: for every student and top-level question with a non-empty
subquestions list (whose parent entry passes the question filter), the
parent-level entry emitted last for that question has category equal to the
minimum of the categories independently computed for each subquestion's
grade, and confidence equal to the minimum of the subquestions'
confidences. -/
theorem parent_entry_is_min_of_children (thresholds : Thresholds)
    (selectedQuestion : Option String) (student : Student) (question : Question)
    (hsub : question.subquestions ≠ [])
    (hpass : passesQuestionFilter selectedQuestion question.id = true) :
    ∃ e : TriageItem,
      (questionEntries thresholds selectedQuestion student question).getLast? = some e ∧
      e.taskName = student.name ++ " - " ++ question.id ∧
      e.questionId = question.id ∧
      e.category ∈ question.subquestions.map (subCategoryOf thresholds student) ∧
      (∀ c ∈ question.subquestions.map (subCategoryOf thresholds student), e.category ≤ c) ∧
      e.confidence ∈ question.subquestions.map (subConfOf student) ∧
      (∀ x ∈ question.subquestions.map (subConfOf student), e.confidence ≤ x) := by
  have hlen : question.subquestions.length > 0 := List.length_pos.mpr hsub
  have hmapc : question.subquestions.map (subCategoryOf thresholds student) ≠ [] := by
    simpa using hsub
  have hmapf : question.subquestions.map (subConfOf student) ≠ [] := by
    simpa using hsub
  refine ⟨{ taskName := student.name ++ " - " ++ question.id
            confidence := mathMin (question.subquestions.map (subConfOf student)) 0
            category := mathMin (question.subquestions.map (subCategoryOf thresholds student)) 0
            studentName := student.name
            questionId := question.id }, ?_, rfl, rfl,
    mathMin_mem _ _ hmapc, mathMin_le _ _, mathMin_mem _ _ hmapf, mathMin_le _ _⟩
  simp [questionEntries, hlen, hpass, List.getLast?_concat]

/-- Witness for C4: two zero-point subquestions classified graded2Plus (code
4) and aiLow (code 0); the parent entry carries category 0 and confidence
0. -/
theorem parent_entry_witness :
    ∃ e : TriageItem,
      (questionEntries ⟨80, 50⟩ none pStudent pQuestion).getLast? = some e ∧
      e.taskName = pStudent.name ++ " - " ++ pQuestion.id ∧
      e.questionId = pQuestion.id ∧
      e.category ∈ pQuestion.subquestions.map (subCategoryOf ⟨80, 50⟩ pStudent) ∧
      (∀ c ∈ pQuestion.subquestions.map (subCategoryOf ⟨80, 50⟩ pStudent), e.category ≤ c) ∧
      e.confidence ∈ pQuestion.subquestions.map (subConfOf pStudent) ∧
      (∀ x ∈ pQuestion.subquestions.map (subConfOf pStudent), e.confidence ≤ x) :=
  parent_entry_is_min_of_children ⟨80, 50⟩ none pStudent pQuestion (by decide) (by decide)

/-! ### C9 -/

/-- C9: with no question filter and no student filter, the triage list is
exactly the per-student, per-question concatenation of `questionEntries`,
and a top-level question with a non-empty subquestions list contributes
1 + |subquestions| entries for each student. -/
theorem unfiltered_parent_entry_count (repo : RepoData) (thresholds : Thresholds)
    (student : Student) (question : Question)
    (hsub : question.subquestions ≠ []) :
    buildItems repo thresholds none none =
      repo.studentSubmissions.flatMap (fun s =>
        repo.questions.flatMap (questionEntries thresholds none s)) ∧
    questionEntries thresholds none student question
      = question.subquestions.map (subEntry thresholds student)
        ++ [{ taskName := student.name ++ " - " ++ question.id
              confidence := mathMin (question.subquestions.map (subConfOf student)) 0
              category := mathMin (question.subquestions.map (subCategoryOf thresholds student)) 0
              studentName := student.name
              questionId := question.id }] ∧
    (questionEntries thresholds none student question).length
      = 1 + question.subquestions.length := by
  have hlen : question.subquestions.length > 0 := List.length_pos.mpr hsub
  refine ⟨?_, ?_, ?_⟩
  · unfold buildItems
    simp [passesStudentFilter]
  · simp [questionEntries, hlen, passesQuestionFilter, List.filter_true]
  · simp [questionEntries, hlen, passesQuestionFilter, List.filter_true]
    omega

/-- Witness for C9 on a parent question with two subquestions. -/
theorem unfiltered_count_witness :
    (questionEntries ⟨80, 50⟩ none pStudent pQuestion).length
      = 1 + pQuestion.subquestions.length :=
  (unfiltered_parent_entry_count wRepo ⟨80, 50⟩ pStudent pQuestion (by decide)).2.2

/-! ### C6 -/

/-- C6: `calculateGradingStats` returns the `null` sentinel exactly when the
repository is absent or lacks `questions` or `studentSubmissions` (and being
a total function it never throws); the triage list builder renders the
placeholder when the repository is absent or lacks `questions`. -/
theorem no_data_sentinel (repository : Option Repository) (thresholds : Thresholds)
    (selectedQuestion selectedStudent : Option String) :
    (calculateGradingStats repository thresholds = none ↔
      repository = none ∨ ∃ repo, repository = some repo ∧
        (repo.questions = none ∨ repo.studentSubmissions = none)) ∧
    ((repository = none ∨ ∃ repo, repository = some repo ∧ repo.questions = none) →
      renderStudentExamsList repository thresholds selectedQuestion selectedStudent
        = RenderResult.placeholder) := by
  rcases repository with _ | ⟨oq, os⟩
  · simp [calculateGradingStats, renderStudentExamsList]
  · rcases oq with _ | qs <;> rcases os with _ | ss <;>
      simp [calculateGradingStats, renderStudentExamsList]

/-- Witness for C6: an absent repository renders the placeholder. -/
theorem no_data_witness :
    renderStudentExamsList none ⟨80, 50⟩ none none = RenderResult.placeholder :=
  (no_data_sentinel none ⟨80, 50⟩ none none).2 (Or.inl rfl)

/-! ### C7 -/

theorem toPercentages_totalCount (s : QuestionStat) :
    (toPercentages s).totalCount = s.totalCount := by
  unfold toPercentages
  split <;> rfl

theorem toPercentages_sum (s : QuestionStat)
    (hsum : s.aiHigh + s.aiLow + s.lowScore + s.gradedOnce + s.graded2Plus = s.totalCount)
    (hpos : 0 < s.totalCount) :
    (toPercentages s).aiHigh + (toPercentages s).aiLow + (toPercentages s).lowScore
      + (toPercentages s).gradedOnce + (toPercentages s).graded2Plus = 100 := by
  unfold toPercentages
  rw [if_pos hpos]
  simp only
  have hT : (s.totalCount : ℚ) ≠ 0 := by
    exact_mod_cast hpos.ne'
  field_simp
  linear_combination (100 : ℚ) * hsum

theorem rawQuestionStat_sum (repo : RepoData) (thresholds : Thresholds) (q : Question) :
    (rawQuestionStat repo thresholds q).aiHigh + (rawQuestionStat repo thresholds q).aiLow
      + (rawQuestionStat repo thresholds q).lowScore
      + (rawQuestionStat repo thresholds q).gradedOnce
      + (rawQuestionStat repo thresholds q).graded2Plus
      = ((rawQuestionStat repo thresholds q).totalCount : ℚ) := by
  unfold rawQuestionStat
  simp only
  exact_mod_cast catCount_sum (questionPairCategories repo thresholds q)

theorem questionStatFinal_sum (repo : RepoData) (thresholds : Thresholds) (q : Question)
    (hpos : 0 < (questionStatFinal repo thresholds q).totalCount) :
    (questionStatFinal repo thresholds q).aiHigh
      + (questionStatFinal repo thresholds q).aiLow
      + (questionStatFinal repo thresholds q).lowScore
      + (questionStatFinal repo thresholds q).gradedOnce
      + (questionStatFinal repo thresholds q).graded2Plus = 100 := by
  unfold questionStatFinal at *
  rw [toPercentages_totalCount] at hpos
  exact toPercentages_sum _ (rawQuestionStat_sum repo thresholds q) hpos

/-- C7: for every repository and thresholds for which the aggregator returns
a result, every stored per-question stats entry with positive totalCount has
its five category percentages summing to exactly 100 in rational
arithmetic. -/
theorem question_percentages_sum_100 (repository : Option Repository)
    (thresholds : Thresholds) (stats : Stats)
    (h : calculateGradingStats repository thresholds = some stats) :
    ∀ p ∈ stats.questionStats, 0 < p.2.totalCount →
      p.2.aiHigh + p.2.aiLow + p.2.lowScore + p.2.gradedOnce + p.2.graded2Plus = 100 := by
  rcases repository with _ | ⟨oq, os⟩
  · simp [calculateGradingStats] at h
  · rcases oq with _ | qs
    · simp [calculateGradingStats] at h
    · rcases os with _ | ss
      · simp [calculateGradingStats] at h
      · simp only [calculateGradingStats, Option.some.injEq] at h
        subst h
        intro p hp hpos
        simp only [List.mem_map] at hp
        obtain ⟨q, hq, hpq⟩ := hp
        rw [← hpq] at hpos ⊢
        exact questionStatFinal_sum ⟨qs, ss⟩ thresholds q hpos

/-- Evaluation of the aggregator on the spec section 8 scenario (one
10-point question, one student at confidence 90 score 8, thresholds 80/50):
all weight lands in aiHigh. -/
theorem wStats_eval :
    calculateGradingStats (some ⟨some [wQuestion], some [wStudent]⟩) ⟨80, 50⟩
      = some ⟨⟨100, 0, 0, 0, 0, 100⟩, [("Q1", ⟨100, 0, 0, 0, 0, 1⟩)]⟩ := by
  norm_num [calculateGradingStats, globalStatsOf, globalCategoryWeight, globalTotalWeight,
    contribution, weightPerQuestion, questionStatFinal, rawQuestionStat, toPercentages,
    questionPairCategories, subItems, pairCategory, findGrade, determineCategory,
    wStudent, wQuestion, List.find?]
  decide

/-- Witness for C7 at the spec section 8 scenario. -/
theorem question_percentages_witness : (100 : ℚ) + 0 + 0 + 0 + 0 = 100 :=
  question_percentages_sum_100 (some ⟨some [wQuestion], some [wStudent]⟩) ⟨80, 50⟩
    ⟨⟨100, 0, 0, 0, 0, 100⟩, [("Q1", ⟨100, 0, 0, 0, 0, 1⟩)]⟩ wStats_eval
    ("Q1", ⟨100, 0, 0, 0, 0, 1⟩) (by simp) (by norm_num)

/-! ### C10 -/

theorem globalTotalWeight_eq_sum (d : RepoData) (thresholds : Thresholds) :
    globalTotalWeight d
      = globalCategoryWeight d thresholds .aiHigh
        + globalCategoryWeight d thresholds .aiLow
        + globalCategoryWeight d thresholds .lowScore
        + globalCategoryWeight d thresholds .gradedOnce
        + globalCategoryWeight d thresholds .graded2Plus := by
  unfold globalTotalWeight globalCategoryWeight
  apply sum_split5
  intro q hq
  apply sum_split5
  intro item hitem
  apply sum_split5
  intro student hstudent
  cases hc : pairCategory d thresholds item student <;> simp [hc]

/-- C10: for every repository and thresholds for which the aggregator
returns a result, `globalStats.totalWeight` equals the exact rational sum of
the five per-category global weights, including degenerate repositories. -/
theorem totalWeight_eq_category_sum (repository : Option Repository)
    (thresholds : Thresholds) (stats : Stats)
    (h : calculateGradingStats repository thresholds = some stats) :
    stats.globalStats.totalWeight
      = stats.globalStats.aiHigh + stats.globalStats.aiLow + stats.globalStats.lowScore
        + stats.globalStats.gradedOnce + stats.globalStats.graded2Plus := by
  rcases repository with _ | ⟨oq, os⟩
  · simp [calculateGradingStats] at h
  · rcases oq with _ | qs
    · simp [calculateGradingStats] at h
    · rcases os with _ | ss
      · simp [calculateGradingStats] at h
      · simp only [calculateGradingStats, Option.some.injEq] at h
        subst h
        simpa [globalStatsOf] using globalTotalWeight_eq_sum ⟨qs, ss⟩ thresholds

/-- Witness for C10 at the spec section 8 scenario. -/
theorem totalWeight_sum_witness : (100 : ℚ) = 100 + 0 + 0 + 0 + 0 :=
  totalWeight_eq_category_sum (some ⟨some [wQuestion], some [wStudent]⟩) ⟨80, 50⟩
    ⟨⟨100, 0, 0, 0, 0, 100⟩, [("Q1", ⟨100, 0, 0, 0, 0, 1⟩)]⟩ wStats_eval

/-! ### C2 -/

/-- Counterexample for C2 as stated: a repository with zero top-level
questions and one student satisfies the claim's hypotheses (every top-level
question vacuously has a gradable leaf item, and there is a student), yet
`totalWeight` is 0, not 100. -/
theorem totalWeight_100_counterexample :
    (∀ q ∈ ([] : List Question), subItems q ≠ []) ∧
    ([cexStudent] : List Student) ≠ [] ∧
    calculateGradingStats (some ⟨some [], some [cexStudent]⟩) ⟨80, 50⟩
      = some ⟨⟨0, 0, 0, 0, 0, 0⟩, []⟩ ∧
    (0 : ℚ) ≠ 100 := by
  refine ⟨by simp, by simp, ?_, by norm_num⟩
  simp [calculateGradingStats, globalStatsOf, globalCategoryWeight, globalTotalWeight]

theorem globalTotalWeight_eq_100 (d : RepoData)
    (hq : d.questions ≠ []) (hs : d.studentSubmissions ≠ []) :
    globalTotalWeight d = 100 := by
  have hM : (d.studentSubmissions.length : ℚ) ≠ 0 := by
    exact_mod_cast (List.length_pos.mpr hs).ne'
  have hN : (d.questions.length : ℚ) ≠ 0 := by
    exact_mod_cast (List.length_pos.mpr hq).ne'
  have hstep : ∀ q ∈ d.questions,
      ((subItems q).map (fun _ =>
        (d.studentSubmissions.map (fun _ => contribution d q)).sum)).sum
        = 100 / d.questions.length := by
    intro q hq2
    have hK : ((subItems q).length : ℚ) ≠ 0 := by
      exact_mod_cast (List.length_pos.mpr (subItems_ne_nil q)).ne'
    rw [sum_map_const, sum_map_const]
    unfold contribution weightPerQuestion
    field_simp
    ring
  unfold globalTotalWeight
  rw [List.map_congr_left hstep, sum_map_const]
  field_simp

/-- C2 amended: for every repository with at least one top-level question
(each automatically contributing at least one gradable leaf item) and at
least one student submission, `globalStats.totalWeight` returned by
`calculateGradingStats` equals exactly 100 in rational arithmetic, for every
threshold setting. -/
theorem totalWeight_eq_100_amended (qs : List Question) (ss : List Student)
    (thresholds : Thresholds) (hq : qs ≠ []) (hs : ss ≠ []) :
    (calculateGradingStats (some ⟨some qs, some ss⟩) thresholds).map
      (fun s => s.globalStats.totalWeight) = some 100 := by
  have h100 := globalTotalWeight_eq_100 ⟨qs, ss⟩ hq hs
  simp [calculateGradingStats, globalStatsOf, h100]

/-- Witness for the amended C2 at the spec section 8 scenario. -/
theorem totalWeight_100_witness :
    (calculateGradingStats (some ⟨some [wQuestion], some [wStudent]⟩) ⟨80, 50⟩).map
      (fun s => s.globalStats.totalWeight) = some 100 :=
  totalWeight_eq_100_amended [wQuestion] [wStudent] ⟨80, 50⟩
    (List.cons_ne_nil _ _) (List.cons_ne_nil _ _)

/-! ### C5 -/

/-- Counterexample for C5 as stated: with `aiConfidenceThreshold = 0` a
missing grade is classified `aiLow` by the aggregator but `lowScore` (code
1) by the triage list builder, so the two do not agree for every threshold
setting and the triage classification is not that of `aiLow`. -/
theorem missing_grade_counterexample :
    gradeFor cexStudent "Q1" = none ∧
    findGrade cexRepo cexStudent.id "Q1" = none ∧
    pairCategory cexRepo ⟨0, 50⟩ ⟨"Q1", 0⟩ cexStudent = Category.aiLow ∧
    buildItems cexRepo ⟨0, 50⟩ none none
      = [⟨"A - Q1", 0, 1, "A", "Q1"⟩] ∧
    getCategoryCode Category.aiLow = 0 ∧ (1 : ℕ) ≠ 0 := by
  decide

/-- C5 amended: for every (gradable leaf item, student) pair with no grade
entry and for every threshold setting, the aggregator classifies the pair as
aiLow and the triage list builder classifies it as the classification of the
implicit grade {confidence: 0, score: 0, manualStatus: 0}; whenever
`aiConfidenceThreshold > 0` that classification is also aiLow, so the two
agree. -/
theorem missing_grade_amended (repo : RepoData) (thresholds : Thresholds)
    (item : SubQuestion) (student : Student)
    (hAgg : findGrade repo student.id item.id = none)
    (hTri : gradeFor student item.id = none) :
    pairCategory repo thresholds item student = Category.aiLow ∧
    subCategoryOf thresholds student item
      = getCategoryCode (determineCategory 0 0 item.points 0 thresholds) ∧
    (0 < thresholds.aiConfidenceThreshold →
      determineCategory 0 0 item.points 0 thresholds = Category.aiLow ∧
      subCategoryOf thresholds student item = getCategoryCode Category.aiLow) := by
  have h1 : pairCategory repo thresholds item student = Category.aiLow := by
    unfold pairCategory
    rw [hAgg]
  have h2 : subCategoryOf thresholds student item
      = getCategoryCode (determineCategory 0 0 item.points 0 thresholds) := by
    unfold subCategoryOf subConfOf subScoreOf subStatusOf getCategory
    rw [hTri]
    rfl
  refine ⟨h1, h2, fun hT => ?_⟩
  have hd : determineCategory 0 0 item.points 0 thresholds = Category.aiLow := by
    unfold determineCategory
    norm_num [hT]
  exact ⟨hd, by rw [h2, hd]⟩

/-- Witness for the amended C5 at the default thresholds. -/
theorem missing_grade_witness :
    pairCategory cexRepo ⟨80, 50⟩ ⟨"Q1", 0⟩ cexStudent = Category.aiLow ∧
    subCategoryOf ⟨80, 50⟩ cexStudent ⟨"Q1", 0⟩
      = getCategoryCode (determineCategory 0 0 0 0 ⟨80, 50⟩) ∧
    (determineCategory 0 0 0 0 ⟨80, 50⟩ = Category.aiLow ∧
      subCategoryOf ⟨80, 50⟩ cexStudent ⟨"Q1", 0⟩ = getCategoryCode Category.aiLow) := by
  have h := missing_grade_amended cexRepo ⟨80, 50⟩ ⟨"Q1", 0⟩ cexStudent
    (by decide) (by decide)
  exact ⟨h.1, h.2.1, h.2.2 (by norm_num)⟩

end Grading
